import Mathlib

/-!
Shallow embedding of `hcloud/resource_hcloud_server_network.go`: the identity
codec (`generateServerNetworkID` and the decoding prefix of
`lookupServerNetworkID`), the attachment state resolver, and the convergence
operations (attach, alias-IP update, detach).  Go strings are embedded as
`List Char`, Go `int` as `Int` (machine-word overflow is not modelled), and
the cloud client as pure response functions; mutating calls are indexed by the
attempt number so that a sequence of responses to repeated identical calls can
be expressed.
-/

namespace HCSN

/-- Error codes distinguished via `hcloud.IsError` in the source file. -/
inductive ErrCode where
  | conflict
  | locked
  | notFound
  | serverAlreadyAttached
  | uniquenessError
deriving DecidableEq

/-- Errors: the package-level sentinel `errInvalidServerNetworkID`, cloud API
errors carrying a code (`hcloud.Error`), plain errors, and errors wrapped with
a context message by the `v` verb of `fmt.Errorf` (which hides the original
error from `hcloud.IsError`). -/
inductive Err where
  | invalidServerNetworkID
  | api (code : ErrCode) (msg : String)
  | generic (msg : String)
  | wrapped (ctx : String) (e : Err)
deriving DecidableEq

/-- Embedding of `hcloud.IsError(err, code)`: true exactly when the error is a
cloud API error with the given code. -/
def isError (e : Err) (c : ErrCode) : Bool :=
  match e with
  | .api c2 _ => c2 == c
  | _ => false

/-- Cloud action handle (`hcloud.Action`); only its identity matters here. -/
structure Action where
  id : Int
deriving DecidableEq

structure Network where
  id : Int
deriving DecidableEq

/-- One entry of a server's private-network membership list
(`hcloud.ServerPrivateNet`); IPs and the MAC address are kept as their string
renderings. -/
structure ServerPrivateNet where
  network : Network
  ip : String
  aliases : List String
  macAddress : String
deriving DecidableEq

structure Server where
  id : Int
  privateNet : List ServerPrivateNet
deriving DecidableEq

structure ServerAttachToNetworkOpts where
  network : Network
  ip : String
  aliasIPs : List String

structure ServerChangeAliasIPsOpts where
  network : Network
  aliasIPs : List String

/-- The network pointer may be nil in Go (`resourceServerNetworkDelete` passes
the unchecked lookup result), hence the `Option`. -/
structure ServerDetachFromNetworkOpts where
  network : Option Network

/-- Trace of cloud read calls performed by the resolver, in call order. -/
inductive FetchEv where
  | fetchServer (id : Int)
  | fetchNetwork (id : Int)
deriving DecidableEq

/-- The cloud API client, embedded as response functions.  Fetches return the
record together with an optional error, mirroring the Go result pair; mutating
calls take the attempt number as an extra argument. -/
structure Client where
  getServer : Int → Option Server × Option Err
  getNetwork : Int → Option Network × Option Err
  attachToNetwork : Server → ServerAttachToNetworkOpts → Nat → Except Err Action
  changeAliasIPs : Server → ServerChangeAliasIPsOpts → Nat → Except Err Action
  detachFromNetwork : Option Server → ServerDetachFromNetworkOpts → Nat → Except Err Action
  waitNetworkAction : Option Action → Option Network → Option Err

/-- Go digit test used by `strconv.Atoi`: the character is between the zero
digit and the nine digit. -/
def isDigit (c : Char) : Bool :=
  48 ≤ c.toNat && c.toNat ≤ 57

/-- Value of an unsigned decimal digit string, as `strconv.Atoi` computes it
after stripping the sign: fails on the empty string or on any non-digit
character (machine-int overflow is not modelled). -/
def digitsToNatOpt (s : List Char) : Option Nat :=
  if s = [] then none
  else if s.all isDigit then
    some (s.foldl (fun acc c => acc * 10 + (c.toNat - 48)) 0)
  else none

/-- Embedding of `strconv.Atoi`: an optional sign followed by one or more
decimal digits. -/
def goAtoi : List Char → Option Int
  | [] => none
  | c :: rest =>
    if c = '-' then (digitsToNatOpt rest).map (fun m => -(m : Int))
    else if c = '+' then (digitsToNatOpt rest).map (fun m => (m : Int))
    else (digitsToNatOpt (c :: rest)).map (fun m => (m : Int))

/-- First-separator split, as `strings.SplitN` with limit two performs it:
`none` means the separator does not occur (SplitN then yields a single part,
which `lookupServerNetworkID` rejects). -/
def splitFirst (sep : Char) : List Char → Option (List Char × List Char)
  | [] => none
  | c :: rest =>
    if c = sep then some ([], rest)
    else
      match splitFirst sep rest with
      | none => none
      | some (a, b) => some (c :: a, b)

/-- Digit expansion with explicit fuel so that the kernel can evaluate it on
concrete inputs; the fuel is always at least the number itself. -/
def natDigitsAux : Nat → Nat → List Char
  | 0, _ => []
  | _ + 1, 0 => []
  | fuel + 1, n + 1 =>
    natDigitsAux fuel ((n + 1) / 10) ++ [Nat.digitChar ((n + 1) % 10)]

/-- Decimal digits of a natural number, most significant first, as the `d`
verb of `fmt.Sprintf` prints it. -/
def natDigits (n : Nat) : List Char :=
  if n = 0 then ['0'] else natDigitsAux n n

/-- Decimal rendering of a Go `int` by the `d` verb of `fmt.Sprintf`. -/
def intToDecimal (i : Int) : List Char :=
  if i < 0 then '-' :: natDigits i.natAbs else natDigits i.toNat

/-- Embedding of `generateServerNetworkID`. -/
def generateServerNetworkID (server : Server) (network : Network) : List Char :=
  intToDecimal server.id ++ '-' :: intToDecimal network.id

/-- The pure decoding steps of `lookupServerNetworkID` (empty check, first-dash
split, `strconv.Atoi` on both parts), composed without the cloud fetches that
the source interleaves between them. -/
def parseServerNetworkID (s : List Char) : Option (Int × Int) :=
  if s = [] then none
  else
    match splitFirst '-' s with
    | none => none
    | some (p1, p2) =>
      match goAtoi p1 with
      | none => none
      | some serverID =>
        match goAtoi p2 with
        | none => none
        | some networkID => some (serverID, networkID)

/-- Outcome of one attempt inside a retried operation: success, an error the
closure hands back for retry, or an error aborted via `abortRetry`. -/
inductive RetryOutcome (α : Type) where
  | ok (a : α)
  | retryable (e : Err)
  | fatal (e : Err)

/-- Modelled from the spec: the repository's `retry` and `abortRetry` helpers
are outside this source file.  Per the spec, the invoker runs the operation in
a bounded loop: a success or an aborted error stops at once, a retryable error
is tried again until the attempt budget is exhausted, and exhaustion surfaces
the last observed error.  The result pairs the final error (if any) with the
value captured by the last attempt. -/
def retryAux (f : Nat → RetryOutcome α) : Nat → Nat → Option Err × Option α
  | _, 0 => (none, none)
  | i, rem + 1 =>
    match f i with
    | .ok a => (none, some a)
    | .fatal e => (some e, none)
    | .retryable e =>
      match rem with
      | 0 => (some e, none)
      | rem2 + 1 => retryAux f (i + 1) (rem2 + 1)

/-- Modelled from the spec: entry point of the retrying invoker. -/
def retry (maxTries : Nat) (f : Nat → RetryOutcome α) : Option Err × Option α :=
  retryAux f 0 maxTries

/-- Modelled from the spec: the fixed maximum attempt count of the retrying
invoker (a repository constant outside this source file). -/
def defaultMaxRetries : Nat := 5

/-- The attach closure's error classification: Conflict and Locked errors are
handed back to the retry loop, any other error aborts it, success stops it. -/
def attachRetryClassify (r : Except Err Action) : RetryOutcome Action :=
  match r with
  | .ok a => .ok a
  | .error e =>
    if isError e .conflict || isError e .locked then .retryable e else .fatal e

/-- The detach closure's error classification, textually repeated in the
source with the same semantics as the attach one. -/
def detachRetryClassify (r : Except Err Action) : RetryOutcome Action :=
  match r with
  | .ok a => .ok a
  | .error e =>
    if isError e .conflict || isError e .locked then .retryable e else .fatal e

/-- The membership scan of `lookupServerNetworkID`: first entry of the
server's private-network list whose network ID matches. -/
def findPrivateNet (l : List ServerPrivateNet) (networkID : Int) : Option ServerPrivateNet :=
  l.find? (fun pn => pn.network.id == networkID)

/-- Result of `lookupServerNetworkID`, together with the trace of cloud reads
it performed. -/
structure LookupResult where
  server : Option Server
  network : Option Network
  serverPrivateNet : Option ServerPrivateNet
  err : Option Err
  trace : List FetchEv
deriving DecidableEq

/-- Embedding of `lookupServerNetworkID`.  Faithful details: the server fetch
happens before the network part of the identifier is parsed; a server-fetch
error or a missing server, a missing network, and every decoding failure are
all folded into the `errInvalidServerNetworkID` sentinel; a network-fetch
error with a non-missing network record is passed through unchanged (the
source only checks the record against nil); a missing membership entry is a
successful result with no membership. -/
def lookupServerNetworkID (terraformID : List Char) (client : Client) : LookupResult :=
  if terraformID = [] then
    ⟨none, none, none, some Err.invalidServerNetworkID, []⟩
  else
    match splitFirst '-' terraformID with
    | none => ⟨none, none, none, some Err.invalidServerNetworkID, []⟩
    | some (p1, p2) =>
      match goAtoi p1 with
      | none => ⟨none, none, none, some Err.invalidServerNetworkID, []⟩
      | some serverID =>
        match client.getServer serverID with
        | (srvOpt, some _) =>
          ⟨srvOpt, none, none, some Err.invalidServerNetworkID, [FetchEv.fetchServer serverID]⟩
        | (none, none) =>
          ⟨none, none, none, some Err.invalidServerNetworkID, [FetchEv.fetchServer serverID]⟩
        | (some srv, none) =>
          match goAtoi p2 with
          | none =>
            ⟨some srv, none, none, some Err.invalidServerNetworkID, [FetchEv.fetchServer serverID]⟩
          | some networkID =>
            match client.getNetwork networkID with
            | (none, _) =>
              ⟨some srv, none, none, some Err.invalidServerNetworkID,
                [FetchEv.fetchServer serverID, FetchEv.fetchNetwork networkID]⟩
            | (some nw, e2) =>
              ⟨some srv, some nw, findPrivateNet srv.privateNet nw.id, e2,
                [FetchEv.fetchServer serverID, FetchEv.fetchNetwork networkID]⟩

/-- Modelled from the spec: the alias-IP order reconciliation
`merge.StringSlice` from the repository's internal merge package (outside this
source file).  Keep the elements of the locally-declared list that the cloud
still reports, in local order, then append the cloud-only elements in cloud
order. -/
def mergeStringSlice (a b : List String) : List String :=
  a.filter (fun s => b.contains s) ++ b.filter (fun s => !a.contains s)

/-- Modelled from the spec: the repository's `waitForNetworkAction` helper
(outside this source file) awaits the asynchronous action's terminal state and
reports its failure; embedded as the client's response function. -/
def waitForNetworkAction (client : Client) (a : Option Action) (nw : Option Network) : Option Err :=
  client.waitNetworkAction a nw

/-- Observable outcome of `resourceServerNetworkRead`: the diagnostics error,
whether the local record was dropped, and the schema values written back. -/
structure ReadOutcome where
  err : Option Err
  idDropped : Bool
  newID : Option (List Char)
  ip : Option String
  aliasIPs : Option (List String)
  macAddress : Option String
deriving DecidableEq

/-- Embedding of `resourceServerNetworkRead` (with `setServerNetworkSchema`
inlined): the sentinel drops the record, any other lookup error is fatal, a
missing server, network or membership drops the record, and otherwise the ID
is regenerated and the alias-IP lists are merged.  `tfAliasIPs` is the
alias-IP list currently held by the declared state. -/
def resourceServerNetworkRead (terraformID : List Char) (client : Client)
    (tfAliasIPs : List String) : ReadOutcome :=
  let r := lookupServerNetworkID terraformID client
  match r.err with
  | some e =>
    if e = Err.invalidServerNetworkID then ⟨none, true, none, none, none, none⟩
    else ⟨some e, false, none, none, none, none⟩
  | none =>
    match r.server with
    | none => ⟨none, true, none, none, none, none⟩
    | some srv =>
      match r.network with
      | none => ⟨none, true, none, none, none, none⟩
      | some nw =>
        match r.serverPrivateNet with
        | none => ⟨none, true, none, none, none, none⟩
        | some pn =>
          ⟨none, false, some (generateServerNetworkID srv nw), some pn.ip,
            some (mergeStringSlice tfAliasIPs pn.aliases), some pn.macAddress⟩

/-- Observable outcome of `resourceServerNetworkUpdate`: the diagnostics
error, whether the local record was dropped, whether the change-alias-IPs call
was issued, and whether the asynchronous action was awaited. -/
structure UpdateOutcome where
  err : Option Err
  idDropped : Bool
  changeCalled : Bool
  waited : Bool
deriving DecidableEq

/-- Embedding of `resourceServerNetworkUpdate`.  Faithful details: the
membership returned by the resolver is discarded; when a change in the
alias-IP set is detected the change-alias-IPs call is issued directly, not
through the retrying invoker; on success the trailing read runs with the new
alias-IP list as the declared state. -/
def resourceServerNetworkUpdate (terraformID : List Char) (client : Client)
    (hasChangeAliasIPs : Bool) (newAliasIPs : List String) : UpdateOutcome :=
  let r := lookupServerNetworkID terraformID client
  match r.err with
  | some e =>
    if e = Err.invalidServerNetworkID then ⟨none, true, false, false⟩
    else ⟨some e, false, false, false⟩
  | none =>
    match r.server with
    | none => ⟨none, true, false, false⟩
    | some srv =>
      match r.network with
      | none => ⟨none, true, false, false⟩
      | some nw =>
        if hasChangeAliasIPs then
          match client.changeAliasIPs srv ⟨nw, newAliasIPs⟩ 0 with
          | .error e => ⟨some e, false, true, false⟩
          | .ok a =>
            match waitForNetworkAction client (some a) (some nw) with
            | some e => ⟨some e, false, true, true⟩
            | none =>
              let ro := resourceServerNetworkRead terraformID client newAliasIPs
              ⟨ro.err, ro.idDropped, true, true⟩
        else
          let ro := resourceServerNetworkRead terraformID client newAliasIPs
          ⟨ro.err, ro.idDropped, false, false⟩

/-- Observable outcome of `resourceServerNetworkDelete`. -/
structure DeleteOutcome where
  err : Option Err
  idDropped : Bool
  detachCalled : Bool
  waited : Bool
deriving DecidableEq

/-- Embedding of `resourceServerNetworkDelete`: any lookup error (sentinel or
not) drops the record and reports success; the detach call runs under the
retrying invoker with Conflict and Locked retryable; a NotFound result from
the retry is converted to success without waiting; otherwise errors surface
and a successful detach awaits the action. -/
def resourceServerNetworkDelete (terraformID : List Char) (client : Client) : DeleteOutcome :=
  let r := lookupServerNetworkID terraformID client
  match r.err with
  | some _ => ⟨none, true, false, false⟩
  | none =>
    let p := retry defaultMaxRetries
      (fun i => detachRetryClassify (client.detachFromNetwork r.server ⟨r.network⟩ i))
    match p.1 with
    | some e =>
      if isError e ErrCode.notFound then ⟨none, false, true, false⟩
      else ⟨some e, false, true, false⟩
    | none =>
      match waitForNetworkAction client p.2 r.network with
      | some e => ⟨some e, false, true, true⟩
      | none => ⟨none, false, true, true⟩

/-- Observable outcome of `attachServerToNetwork`. -/
structure AttachOutcome where
  err : Option Err
  waited : Bool
deriving DecidableEq

/-- Embedding of `attachServerToNetwork`: the attach call runs under the
retrying invoker with Conflict and Locked retryable; a ServerAlreadyAttached
result from the retry is converted to success without waiting; any other
error is wrapped with the attach context message; a successful attach awaits
the action and wraps an action failure with the same context message. -/
def attachServerToNetwork (client : Client) (srv : Server) (nw : Network)
    (ip : String) (aliasIPs : List String) : AttachOutcome :=
  let p := retry defaultMaxRetries
    (fun i => attachRetryClassify (client.attachToNetwork srv ⟨nw, ip, aliasIPs⟩ i))
  match p.1 with
  | some e =>
    if isError e ErrCode.serverAlreadyAttached then ⟨none, false⟩
    else ⟨some (Err.wrapped "attach server to network" e), false⟩
  | none =>
    match waitForNetworkAction client p.2 (some nw) with
    | some e => ⟨some (Err.wrapped "attach server to network" e), true⟩
    | none => ⟨none, true⟩

theorem isDigit_dash : isDigit '-' = false := by decide

theorem isDigit_plus : isDigit '+' = false := by decide

theorem digitChar_isDigit {d : Nat} (h : d < 10) :
    isDigit (Nat.digitChar d) = true ∧ (Nat.digitChar d).toNat - 48 = d := by
  interval_cases d <;> exact ⟨by decide, by decide⟩

theorem splitFirst_eq_some {sep : Char} {s p q : List Char}
    (h : splitFirst sep s = some (p, q)) : s = p ++ sep :: q ∧ sep ∉ p := by
  induction s generalizing p q with
  | nil => simp [splitFirst] at h
  | cons c rest ih =>
    simp only [splitFirst] at h
    split at h
    · next hceq =>
      simp only [Option.some.injEq, Prod.mk.injEq] at h
      obtain ⟨rfl, rfl⟩ := h
      subst hceq
      exact ⟨rfl, by simp⟩
    · next hcne =>
      cases hsp : splitFirst sep rest with
      | none => simp [hsp] at h
      | some ab =>
        obtain ⟨a2, b2⟩ := ab
        simp only [hsp, Option.some.injEq, Prod.mk.injEq] at h
        obtain ⟨h1, h2⟩ := h
        obtain ⟨hdec, hmem⟩ := ih hsp
        subst h2
        constructor
        · rw [← h1, hdec]; rfl
        · rw [← h1]
          intro hm
          rcases List.mem_cons.mp hm with h3 | h3
          · exact hcne h3.symm
          · exact hmem h3

theorem splitFirst_append {sep : Char} {p : List Char} (q : List Char) (hp : sep ∉ p) :
    splitFirst sep (p ++ sep :: q) = some (p, q) := by
  induction p with
  | nil => simp [splitFirst]
  | cons c rest ih =>
    have hc : c ≠ sep := fun h => hp (h ▸ List.mem_cons_self c rest)
    have hrest : sep ∉ rest := fun h => hp (List.mem_cons_of_mem _ h)
    simp only [List.cons_append, splitFirst, if_neg hc, List.append_eq, ih hrest]

theorem natDigitsAux_eq {fuel n : Nat} (h : n ≤ fuel) :
    natDigitsAux fuel n = ((Nat.digits 10 n).map Nat.digitChar).reverse := by
  induction fuel generalizing n with
  | zero =>
    interval_cases n
    simp [natDigitsAux]
  | succ f ih =>
    cases n with
    | zero => simp [natDigitsAux]
    | succ m =>
      have hdiv : (m + 1) / 10 < m + 1 := Nat.div_lt_self (Nat.succ_pos m) (by norm_num)
      rw [natDigitsAux, ih (by omega),
        Nat.digits_def' (by norm_num : (1 : Nat) < 10) (Nat.succ_pos m)]
      simp

theorem natDigits_eq (n : Nat) :
    natDigits n = if n = 0 then ['0'] else ((Nat.digits 10 n).map Nat.digitChar).reverse := by
  unfold natDigits
  split
  · rfl
  · exact natDigitsAux_eq (le_refl n)

theorem natDigits_ne_nil (n : Nat) : natDigits n ≠ [] := by
  rw [natDigits_eq]
  split
  · simp
  · next h =>
    simp only [ne_eq, List.reverse_eq_nil_iff, List.map_eq_nil_iff]
    exact fun hnil => h (Nat.digits_eq_nil_iff_eq_zero.mp hnil)

theorem natDigits_all_isDigit {n : Nat} : ∀ c ∈ natDigits n, isDigit c = true := by
  intro c hc
  rw [natDigits_eq] at hc
  split at hc
  · simp only [List.mem_singleton] at hc
    subst hc
    decide
  · rw [List.mem_reverse] at hc
    obtain ⟨d, hd, rfl⟩ := List.mem_map.mp hc
    have hdlt : d < 10 := Nat.digits_lt_base (by norm_num) hd
    exact (digitChar_isDigit hdlt).1

theorem foldl_digitChar_reverse (L : List Nat) (hL : ∀ d ∈ L, d < 10) (a : Nat) :
    ((L.map Nat.digitChar).reverse).foldl (fun acc c => acc * 10 + (c.toNat - 48)) a
      = a * 10 ^ L.length + Nat.ofDigits 10 L := by
  induction L generalizing a with
  | nil => simp [Nat.ofDigits]
  | cons d T ih =>
    have hd : d < 10 := hL d (List.mem_cons_self _ _)
    have hT : ∀ x ∈ T, x < 10 := fun x hx => hL x (List.mem_cons_of_mem _ hx)
    simp only [List.map_cons, List.reverse_cons, List.foldl_append, List.foldl_cons,
      List.foldl_nil]
    rw [ih hT, (digitChar_isDigit hd).2, Nat.ofDigits_cons]
    simp only [List.length_cons, pow_succ]
    ring

theorem foldl_natDigits (n : Nat) :
    (natDigits n).foldl (fun acc c => acc * 10 + (c.toNat - 48)) 0 = n := by
  by_cases h : n = 0
  · subst h; decide
  · rw [natDigits_eq]
    rw [if_neg h,
      foldl_digitChar_reverse _ (fun d hd => Nat.digits_lt_base (by norm_num) hd) 0]
    simp [Nat.ofDigits_digits]

theorem digitsToNatOpt_natDigits (n : Nat) : digitsToNatOpt (natDigits n) = some n := by
  unfold digitsToNatOpt
  rw [if_neg (natDigits_ne_nil n),
    if_pos (List.all_eq_true.mpr fun c hc => natDigits_all_isDigit c hc)]
  rw [foldl_natDigits]

theorem goAtoi_natDigits (n : Nat) : goAtoi (natDigits n) = some (n : Int) := by
  cases hnd : natDigits n with
  | nil => exact absurd hnd (natDigits_ne_nil n)
  | cons c rest =>
    have hc : isDigit c = true :=
      natDigits_all_isDigit c (by rw [hnd]; exact List.mem_cons_self c rest)
    have hcd : c ≠ '-' := by
      intro he; rw [he] at hc; exact absurd hc (by decide)
    have hcp : c ≠ '+' := by
      intro he; rw [he] at hc; exact absurd hc (by decide)
    simp only [goAtoi, if_neg hcd, if_neg hcp]
    rw [← hnd, digitsToNatOpt_natDigits]
    rfl

theorem intToDecimal_nonneg {i : Int} (h : 0 ≤ i) : intToDecimal i = natDigits i.toNat := by
  unfold intToDecimal
  rw [if_neg (by omega)]

theorem goAtoi_intToDecimal {i : Int} (h : 0 ≤ i) : goAtoi (intToDecimal i) = some i := by
  rw [intToDecimal_nonneg h, goAtoi_natDigits]
  congr 1
  omega

theorem parse_eq_some_iff {s : List Char} {a b : Int} :
    parseServerNetworkID s = some (a, b) ↔
      ∃ p q, s = p ++ '-' :: q ∧ '-' ∉ p ∧ goAtoi p = some a ∧ goAtoi q = some b := by
  constructor
  · intro h
    unfold parseServerNetworkID at h
    by_cases hs : s = []
    · rw [if_pos hs] at h; cases h
    · rw [if_neg hs] at h
      cases hsp : splitFirst '-' s with
      | none => simp [hsp] at h
      | some pq =>
        obtain ⟨p, q⟩ := pq
        simp only [hsp] at h
        cases hp : goAtoi p with
        | none => simp [hp] at h
        | some av =>
          simp only [hp] at h
          cases hq : goAtoi q with
          | none => simp [hq] at h
          | some bv =>
            simp only [hq, Option.some.injEq, Prod.mk.injEq] at h
            obtain ⟨hdec, hmem⟩ := splitFirst_eq_some hsp
            exact ⟨p, q, hdec, hmem, by rw [hp, h.1], by rw [hq, h.2]⟩
  · rintro ⟨p, q, rfl, hnp, hp, hq⟩
    unfold parseServerNetworkID
    rw [if_neg (by simp)]
    simp only [splitFirst_append q hnp, hp, hq]

theorem parse_eq_none_iff {s : List Char} :
    parseServerNetworkID s = none ↔
      ¬ ∃ p q, (∃ a : Int, goAtoi p = some a) ∧ (∃ b : Int, goAtoi q = some b) ∧
        s = p ++ '-' :: q ∧ '-' ∉ p := by
  constructor
  · rintro h ⟨p, q, ⟨a, hp⟩, ⟨b, hq⟩, hdec, hnp⟩
    have h2 := parse_eq_some_iff.mpr ⟨p, q, hdec, hnp, hp, hq⟩
    rw [h] at h2
    cases h2
  · intro h
    cases hp : parseServerNetworkID s with
    | none => rfl
    | some ab =>
      obtain ⟨a, b⟩ := ab
      obtain ⟨p, q, h1, h2, h3, h4⟩ := parse_eq_some_iff.mp hp
      exact absurd ⟨p, q, ⟨a, h3⟩, ⟨b, h4⟩, h1, h2⟩ h

theorem lookup_of_parse {s : List Char} {sid nid : Int} (client : Client)
    (h : parseServerNetworkID s = some (sid, nid)) :
    lookupServerNetworkID s client =
      match client.getServer sid with
      | (srvOpt, some _) =>
        ⟨srvOpt, none, none, some Err.invalidServerNetworkID, [FetchEv.fetchServer sid]⟩
      | (none, none) =>
        ⟨none, none, none, some Err.invalidServerNetworkID, [FetchEv.fetchServer sid]⟩
      | (some srv, none) =>
        match client.getNetwork nid with
        | (none, _) =>
          ⟨some srv, none, none, some Err.invalidServerNetworkID,
            [FetchEv.fetchServer sid, FetchEv.fetchNetwork nid]⟩
        | (some nw, e2) =>
          ⟨some srv, some nw, findPrivateNet srv.privateNet nw.id, e2,
            [FetchEv.fetchServer sid, FetchEv.fetchNetwork nid]⟩ := by
  obtain ⟨p, q, rfl, hnp, hp, hq⟩ := parse_eq_some_iff.mp h
  unfold lookupServerNetworkID
  rw [if_neg (by simp)]
  simp only [splitFirst_append q hnp, hp, hq]

theorem retryAux_succ {α : Type} (f : Nat → RetryOutcome α) (i rem : Nat) :
    retryAux f i (rem + 1) =
      match f i with
      | .ok a => (none, some a)
      | .fatal e => (some e, none)
      | .retryable e =>
        match rem with
        | 0 => (some e, none)
        | rem2 + 1 => retryAux f (i + 1) (rem2 + 1) := by
  rw [retryAux.eq_def]

theorem retryAux_fatal {α : Type} {f : Nat → RetryOutcome α} {i rem : Nat} {e : Err}
    (hrem : 0 < rem) (h : f i = .fatal e) : retryAux f i rem = (some e, none) := by
  cases rem with
  | zero => omega
  | succ r => rw [retryAux_succ, h]

theorem retryAux_ok {α : Type} {f : Nat → RetryOutcome α} {i rem : Nat} {a : α}
    (hrem : 0 < rem) (h : f i = .ok a) : retryAux f i rem = (none, some a) := by
  cases rem with
  | zero => omega
  | succ r => rw [retryAux_succ, h]

theorem retryAux_exhaust {α : Type} (f : Nat → RetryOutcome α) (es : Nat → Err) :
    ∀ rem i, 0 < rem → (∀ j, j < rem → f (i + j) = .retryable (es (i + j))) →
      retryAux f i rem = (some (es (i + rem - 1)), none) := by
  intro rem
  induction rem with
  | zero => intro i h; omega
  | succ r ih =>
    intro i _ hall
    have h0 : f i = .retryable (es i) := by simpa using hall 0 (Nat.succ_pos r)
    cases r with
    | zero => rw [retryAux_succ, h0]; rfl
    | succ r2 =>
      rw [retryAux_succ, h0]
      show retryAux f (i + 1) (r2 + 1) = _
      have hall2 : ∀ j, j < r2 + 1 → f (i + 1 + j) = .retryable (es (i + 1 + j)) := by
        intro j hj
        have h2 := hall (j + 1) (by omega)
        rw [show i + (j + 1) = i + 1 + j by omega] at h2
        exact h2
      rw [ih (i + 1) (Nat.succ_pos r2) hall2]
      rw [show i + 1 + (r2 + 1) - 1 = i + (r2 + 1 + 1) - 1 by omega]

theorem retryAux_ok_after {α : Type} (f : Nat → RetryOutcome α) (es : Nat → Err) {a : α} :
    ∀ k i rem, k < rem → (∀ j, j < k → f (i + j) = .retryable (es (i + j))) →
      f (i + k) = .ok a → retryAux f i rem = (none, some a) := by
  intro k
  induction k with
  | zero =>
    intro i rem hrem _ hok
    simp only [Nat.add_zero] at hok
    exact retryAux_ok (by omega) hok
  | succ k2 ih =>
    intro i rem hrem hall hok
    have h0 : f i = .retryable (es i) := by simpa using hall 0 (Nat.succ_pos k2)
    cases rem with
    | zero => omega
    | succ r =>
      cases r with
      | zero => omega
      | succ r2 =>
        rw [retryAux_succ, h0]
        show retryAux f (i + 1) (r2 + 1) = _
        have hall2 : ∀ j, j < k2 → f (i + 1 + j) = .retryable (es (i + 1 + j)) := by
          intro j hj
          have h2 := hall (j + 1) (by omega)
          rw [show i + (j + 1) = i + 1 + j by omega] at h2
          exact h2
        have hok2 : f (i + 1 + k2) = .ok a := by
          rw [show i + 1 + k2 = i + (k2 + 1) by omega]
          exact hok
        exact ih (i + 1) (r2 + 1) (by omega) hall2 hok2

/-- C10: the resolver never returns a nil server or a nil network together
with a nil error; whenever the final error is nil, both the server and the
network records are present, so the caller-side branches in Read and Update
that test for a nil server or a nil network under a nil error can never be
taken. -/
theorem c10_resolver_no_nil_under_nil_error (terraformID : List Char) (client : Client)
    (h : (lookupServerNetworkID terraformID client).err = none) :
    (lookupServerNetworkID terraformID client).server.isSome = true ∧
      (lookupServerNetworkID terraformID client).network.isSome = true := by
  revert h
  unfold lookupServerNetworkID
  repeat' split
  all_goals intro h
  all_goals simp_all

/-- Witness for C10's hypothesis: a concrete resolved attachment. -/
theorem c10_witness :
    (lookupServerNetworkID ("1-2".toList)
        ⟨fun _ => (some ⟨1, []⟩, none), fun _ => (some ⟨2⟩, none),
          fun _ _ _ => .ok ⟨7⟩, fun _ _ _ => .ok ⟨7⟩, fun _ _ _ => .ok ⟨7⟩,
          fun _ _ => none⟩).err = none ∧
      (lookupServerNetworkID ("1-2".toList)
          ⟨fun _ => (some ⟨1, []⟩, none), fun _ => (some ⟨2⟩, none),
            fun _ _ _ => .ok ⟨7⟩, fun _ _ _ => .ok ⟨7⟩, fun _ _ _ => .ok ⟨7⟩,
            fun _ _ => none⟩).server.isSome = true := by
  exact ⟨by decide, (c10_resolver_no_nil_under_nil_error _ _ (by decide)).1⟩

/-- Test client with given server and network inventories, all mutating calls
succeeding with action 7 and successful action waits. -/
def mkClientFull (servers : List Server) (networks : List Network)
    (att chg det : Nat → Except Err Action) (w : Option Err) : Client :=
  ⟨fun sid => (servers.find? (fun s => s.id == sid), none),
    fun nid => (networks.find? (fun n => n.id == nid), none),
    fun _ _ i => att i, fun _ _ i => chg i, fun _ _ i => det i, fun _ _ => w⟩

/-- Test client where every mutating call succeeds at once. -/
def mkClient (servers : List Server) (networks : List Network) : Client :=
  mkClientFull servers networks (fun _ => .ok ⟨7⟩) (fun _ => .ok ⟨7⟩) (fun _ => .ok ⟨7⟩) none

/-- C5: for all non-negative integers s and n held by the server and network
records, decoding the encoded identifier round-trips: the encoder produces
the decimal server ID, a dash, and the decimal network ID, and the decoding
steps of the resolver recover exactly (s, n). -/
theorem c5_encode_decode_roundtrip (server : Server) (network : Network)
    (hs : 0 ≤ server.id) (hn : 0 ≤ network.id) :
    parseServerNetworkID (generateServerNetworkID server network) =
      some (server.id, network.id) := by
  unfold generateServerNetworkID
  apply parse_eq_some_iff.mpr
  refine ⟨intToDecimal server.id, intToDecimal network.id, rfl, ?_,
    goAtoi_intToDecimal hs, goAtoi_intToDecimal hn⟩
  rw [intToDecimal_nonneg hs]
  intro hm
  exact absurd (natDigits_all_isDigit _ hm) (by decide)

/-- Witness for C5 at server ID 5 and network ID 100. -/
theorem c5_witness :
    0 ≤ (5 : Int) ∧ 0 ≤ (100 : Int) ∧
      parseServerNetworkID (generateServerNetworkID ⟨5, []⟩ ⟨100⟩) = some (5, 100) :=
  ⟨by decide, by decide, c5_encode_decode_roundtrip ⟨5, []⟩ ⟨100⟩ (by decide) (by decide)⟩

/-- C6: decoding fails exactly when the identifier is empty, has no dash to
split on, or one of the two parts produced by the first-dash split is not a
valid integer; in particular the split is first-dash-only, so on "12-34-56"
the parts are "12" and "34-56", the network part's integer parse fails, and
decoding fails. -/
theorem c6_decode_failure_characterization :
    (∀ s : List Char,
        parseServerNetworkID s = none ↔
          (s = [] ∨ splitFirst '-' s = none ∨
            ∃ p q, splitFirst '-' s = some (p, q) ∧ (goAtoi p = none ∨ goAtoi q = none))) ∧
      splitFirst '-' ("12-34-56".toList) = some ("12".toList, "34-56".toList) ∧
      goAtoi ("34-56".toList) = none ∧
      parseServerNetworkID ("12-34-56".toList) = none := by
  refine ⟨fun s => ⟨?_, ?_⟩, by decide, by decide, by decide⟩
  · intro h
    by_cases hs : s = []
    · exact Or.inl hs
    · unfold parseServerNetworkID at h
      rw [if_neg hs] at h
      cases hsp : splitFirst '-' s with
      | none => exact Or.inr (Or.inl rfl)
      | some pq =>
        obtain ⟨p, q⟩ := pq
        simp only [hsp] at h
        cases hp : goAtoi p with
        | none => exact Or.inr (Or.inr ⟨p, q, rfl, Or.inl hp⟩)
        | some av =>
          simp only [hp] at h
          cases hq : goAtoi q with
          | none => exact Or.inr (Or.inr ⟨p, q, rfl, Or.inr hq⟩)
          | some bv => simp [hq] at h
  · intro h
    rcases h with rfl | hsp | ⟨p, q, hsp, hpq⟩
    · rfl
    · by_cases hs : s = []
      · subst hs; rfl
      · unfold parseServerNetworkID
        rw [if_neg hs]
        simp only [hsp]
    · have hs : s ≠ [] := by
        intro hnil
        subst hnil
        simp [splitFirst] at hsp
      unfold parseServerNetworkID
      rw [if_neg hs]
      rcases hpq with hp | hq
      · simp only [hsp, hp]
      · cases hp : goAtoi p with
        | none => simp only [hsp, hp]
        | some av => simp only [hsp, hp, hq]

/-- C4: for every valid-format external ID the resolver distinguishes three
absence cases: a server lookup error or a missing server yields the
InvalidIdentifier sentinel; a present server with a missing network yields the
sentinel; with both present and no membership entry matching the network ID
the result is the server, the network, no membership and no error. -/
theorem c4_resolver_absence_cases (s : List Char) (sid nid : Int) (client : Client)
    (h : parseServerNetworkID s = some (sid, nid)) :
    ((∀ srvOpt e, client.getServer sid = (srvOpt, some e) →
        (lookupServerNetworkID s client).err = some Err.invalidServerNetworkID) ∧
      (client.getServer sid = (none, none) →
        (lookupServerNetworkID s client).err = some Err.invalidServerNetworkID)) ∧
    (∀ srv e2, client.getServer sid = (some srv, none) →
        client.getNetwork nid = (none, e2) →
        (lookupServerNetworkID s client).err = some Err.invalidServerNetworkID) ∧
    (∀ srv nw, client.getServer sid = (some srv, none) →
        client.getNetwork nid = (some nw, none) →
        findPrivateNet srv.privateNet nw.id = none →
        lookupServerNetworkID s client =
          ⟨some srv, some nw, none, none,
            [FetchEv.fetchServer sid, FetchEv.fetchNetwork nid]⟩) := by
  refine ⟨⟨?_, ?_⟩, ?_, ?_⟩
  · intro srvOpt e hg
    rw [lookup_of_parse client h]
    simp only [hg]
  · intro hg
    rw [lookup_of_parse client h]
    simp only [hg]
  · intro srv e2 hg hn
    rw [lookup_of_parse client h]
    simp only [hg, hn]
  · intro srv nw hg hn hm
    rw [lookup_of_parse client h]
    simp only [hg, hn, hm]

/-- Witness for C4: concrete clients exercising all three absence cases on
the valid-format identifier "1-2". -/
theorem c4_witness :
    (lookupServerNetworkID ("1-2".toList)
        ⟨fun _ => (none, some (Err.generic "boom")), fun _ => (none, none),
          fun _ _ _ => .ok ⟨7⟩, fun _ _ _ => .ok ⟨7⟩, fun _ _ _ => .ok ⟨7⟩,
          fun _ _ => none⟩).err = some Err.invalidServerNetworkID ∧
      (lookupServerNetworkID ("1-2".toList) (mkClient [⟨1, []⟩] [])).err =
        some Err.invalidServerNetworkID ∧
      lookupServerNetworkID ("1-2".toList) (mkClient [⟨1, []⟩] [⟨2⟩]) =
        ⟨some ⟨1, []⟩, some ⟨2⟩, none, none,
          [FetchEv.fetchServer 1, FetchEv.fetchNetwork 2]⟩ := by
  refine ⟨?_, ?_, ?_⟩
  · exact ((c4_resolver_absence_cases ("1-2".toList) 1 2 _ (by decide)).1).1 none
      (Err.generic "boom") (by decide)
  · exact (c4_resolver_absence_cases ("1-2".toList) 1 2 _ (by decide)).2.1 ⟨1, []⟩ none
      (by decide) (by decide)
  · exact (c4_resolver_absence_cases ("1-2".toList) 1 2 _ (by decide)).2.2 ⟨1, []⟩ ⟨2⟩
      (by decide) (by decide) (by decide)

/-- C3 counterexample: decoding of "12-34-56" fails (only at the network
part), yet the resolver has by then already fetched server 12: the trace of
cloud reads is not empty, contradicting the claim that the sentinel is
returned without performing any server or network fetch. -/
theorem c3_counterexample :
    parseServerNetworkID ("12-34-56".toList) = none ∧
      (lookupServerNetworkID ("12-34-56".toList) (mkClient [⟨12, []⟩] [])).err =
        some Err.invalidServerNetworkID ∧
      (lookupServerNetworkID ("12-34-56".toList) (mkClient [⟨12, []⟩] [])).trace =
        [FetchEv.fetchServer 12] := by
  exact ⟨by decide, by decide, by decide⟩

/-- C3 amended: a decoding failure in the empty check, the dash split, or the
server part makes the resolver return the InvalidIdentifier sentinel without
any fetch; a failure in the network part also returns the sentinel but only
after the server fetch has already been performed (when that fetch yields a
server, no network fetch follows). -/
theorem c3_amended_decode_failure_fetches (client : Client) :
    (∀ s : List Char, splitFirst '-' s = none →
        lookupServerNetworkID s client =
          ⟨none, none, none, some Err.invalidServerNetworkID, []⟩) ∧
    (∀ s p1 p2, splitFirst '-' s = some (p1, p2) → goAtoi p1 = none →
        lookupServerNetworkID s client =
          ⟨none, none, none, some Err.invalidServerNetworkID, []⟩) ∧
    (∀ s p1 p2 sid srv, splitFirst '-' s = some (p1, p2) → goAtoi p1 = some sid →
        client.getServer sid = (some srv, none) → goAtoi p2 = none →
        lookupServerNetworkID s client =
          ⟨some srv, none, none, some Err.invalidServerNetworkID,
            [FetchEv.fetchServer sid]⟩) := by
  refine ⟨?_, ?_, ?_⟩
  · intro s hsp
    by_cases hs : s = []
    · subst hs; rfl
    · unfold lookupServerNetworkID
      rw [if_neg hs]
      simp only [hsp]
  · intro s p1 p2 hsp hp
    have hs : s ≠ [] := by
      intro hnil; subst hnil; simp [splitFirst] at hsp
    unfold lookupServerNetworkID
    rw [if_neg hs]
    simp only [hsp, hp]
  · intro s p1 p2 sid srv hsp hp hg hq
    have hs : s ≠ [] := by
      intro hnil; subst hnil; simp [splitFirst] at hsp
    unfold lookupServerNetworkID
    rw [if_neg hs]
    simp only [hsp, hp, hg, hq]

/-- Witness for C3's amended statement: a dash-less identifier and a bad
server part produce the sentinel with no fetch, and "12-34-56" produces the
sentinel with exactly the server fetch performed. -/
theorem c3_witness :
    lookupServerNetworkID ("abc".toList) (mkClient [⟨12, []⟩] []) =
        ⟨none, none, none, some Err.invalidServerNetworkID, []⟩ ∧
      lookupServerNetworkID ("x-2".toList) (mkClient [⟨12, []⟩] []) =
        ⟨none, none, none, some Err.invalidServerNetworkID, []⟩ ∧
      lookupServerNetworkID ("12-34-56".toList) (mkClient [⟨12, []⟩] []) =
        ⟨some ⟨12, []⟩, none, none, some Err.invalidServerNetworkID,
          [FetchEv.fetchServer 12]⟩ := by
  refine ⟨?_, ?_, ?_⟩
  · exact (c3_amended_decode_failure_fetches _).1 _ (by decide)
  · exact (c3_amended_decode_failure_fetches _).2.1 _ ("x".toList) ("2".toList) (by decide)
      (by decide)
  · exact (c3_amended_decode_failure_fetches _).2.2 _ ("12".toList) ("34-56".toList) 12
      ⟨12, []⟩ (by decide) (by decide) (by decide) (by decide)

/-- Membership record attaching a server to network 2, used by test clients. -/
def pn2 : ServerPrivateNet := ⟨⟨2⟩, "10.0.0.2", [], "86:00:00:2d:fd:0f"⟩

/-- C1 counterexample: with a resolved attachment (server 1 on network 2) and
a change detected, the first change-alias-IPs call reports Conflict and that
error surfaces at once — while the retrying invoker applied to the very same
response sequence would have succeeded on the second attempt. -/
theorem c1_counterexample :
    resourceServerNetworkUpdate ("1-2".toList)
        (mkClientFull [⟨1, [pn2]⟩] [⟨2⟩] (fun _ => .ok ⟨7⟩)
          (fun i => if i = 0 then .error (Err.api ErrCode.conflict "conflict") else .ok ⟨7⟩)
          (fun _ => .ok ⟨7⟩) none) true [] =
      ⟨some (Err.api ErrCode.conflict "conflict"), false, true, false⟩ ∧
      retry defaultMaxRetries (fun i => attachRetryClassify
          ((mkClientFull [⟨1, [pn2]⟩] [⟨2⟩] (fun _ => .ok ⟨7⟩)
            (fun i => if i = 0 then .error (Err.api ErrCode.conflict "conflict") else .ok ⟨7⟩)
            (fun _ => .ok ⟨7⟩) none).changeAliasIPs ⟨1, [pn2]⟩ ⟨⟨2⟩, []⟩ i)) =
        (none, some ⟨7⟩) := by
  exact ⟨by decide, by decide⟩

/-- C1 amended: on a resolved attachment with a change detected, the
change-alias-IPs call is issued directly rather than through the retrying
invoker: whatever error the first call reports — Conflict and ResourceLocked
included — surfaces at once, regardless of how any later attempt would have
responded. -/
theorem c1_amended_change_alias_ips_not_retried (s : List Char) (client : Client)
    (srv : Server) (nw : Network) (m : Option ServerPrivateNet) (tr : List FetchEv)
    (newIPs : List String) (e : Err)
    (hl : lookupServerNetworkID s client = ⟨some srv, some nw, m, none, tr⟩)
    (hc : client.changeAliasIPs srv ⟨nw, newIPs⟩ 0 = .error e) :
    resourceServerNetworkUpdate s client true newIPs = ⟨some e, false, true, false⟩ := by
  simp [resourceServerNetworkUpdate, hl, hc]

/-- Witness for C1's amended statement at the counterexample's client. -/
theorem c1_witness :
    resourceServerNetworkUpdate ("1-2".toList)
        (mkClientFull [⟨1, [pn2]⟩] [⟨2⟩] (fun _ => .ok ⟨7⟩)
          (fun i => if i = 0 then .error (Err.api ErrCode.locked "locked") else .ok ⟨7⟩)
          (fun _ => .ok ⟨7⟩) none) true [] =
      ⟨some (Err.api ErrCode.locked "locked"), false, true, false⟩ :=
  c1_amended_change_alias_ips_not_retried ("1-2".toList) _ ⟨1, [pn2]⟩ ⟨2⟩ (some pn2)
    [FetchEv.fetchServer 1, FetchEv.fetchNetwork 2] [] (Err.api ErrCode.locked "locked")
    (by decide) (by rfl)

/-- C2 counterexample: server 1 and network 2 exist but the server has no
membership on network 2, so the resolver returns a nil membership with no
error; with a change detected, Update nevertheless issues the
change-alias-IPs call and awaits its action (the record is dropped only
afterwards, by the trailing read). -/
theorem c2_counterexample :
    resourceServerNetworkUpdate ("1-2".toList) (mkClient [⟨1, []⟩] [⟨2⟩]) true
        ["10.0.0.9"] = ⟨none, true, true, true⟩ := by
  decide

/-- C2 amended: the InvalidIdentifier outcome — into which the resolver also
folds the server-gone and network-gone cases — drops the local record and
reports success without issuing the change-alias-IPs call; the
membership-absent outcome (nil membership, nil error) is not checked by
Update, which proceeds to issue the change-alias-IPs call whenever a change
is detected. -/
theorem c2_amended_update_drop_behaviour :
    (∀ (s : List Char) (client : Client) (hc : Bool) (ips : List String),
        (lookupServerNetworkID s client).err = some Err.invalidServerNetworkID →
        resourceServerNetworkUpdate s client hc ips = ⟨none, true, false, false⟩) ∧
    (∀ (s : List Char) (client : Client) (srv : Server) (nw : Network)
        (tr : List FetchEv) (ips : List String),
        lookupServerNetworkID s client = ⟨some srv, some nw, none, none, tr⟩ →
        (resourceServerNetworkUpdate s client true ips).changeCalled = true) := by
  constructor
  · intro s client hc ips h
    simp [resourceServerNetworkUpdate, h]
  · intro s client srv nw tr ips hl
    simp only [resourceServerNetworkUpdate, hl]
    cases hcc : client.changeAliasIPs srv ⟨nw, ips⟩ 0 with
    | error e => simp [hcc]
    | ok a =>
      cases hw : waitForNetworkAction client (some a) (some nw) with
      | none => simp [hcc, hw]
      | some e => simp [hcc, hw]

/-- Witness for C2's amended statement: a malformed identifier drops the
record, and a membership-less resolved attachment still issues the call. -/
theorem c2_witness :
    resourceServerNetworkUpdate ("junk".toList) (mkClient [] []) true [] =
        ⟨none, true, false, false⟩ ∧
      (resourceServerNetworkUpdate ("1-2".toList) (mkClient [⟨1, []⟩] [⟨2⟩]) true
          []).changeCalled = true :=
  ⟨c2_amended_update_drop_behaviour.1 ("junk".toList) _ true [] (by decide),
    c2_amended_update_drop_behaviour.2 ("1-2".toList) _ ⟨1, []⟩ ⟨2⟩
      [FetchEv.fetchServer 1, FetchEv.fetchNetwork 2] [] (by decide)⟩

/-- C7: when the first attach attempt reports a non-retryable error, attach
converts ServerAlreadyAttached into success without awaiting any action, and
returns every other such error wrapped with the attach context, also without
awaiting. -/
theorem c7_attach_already_attached_idempotent (client : Client) (srv : Server)
    (nw : Network) (ip : String) (ips : List String) (e : Err)
    (h0 : client.attachToNetwork srv ⟨nw, ip, ips⟩ 0 = .error e)
    (hc : isError e ErrCode.conflict = false) (hl : isError e ErrCode.locked = false) :
    (isError e ErrCode.serverAlreadyAttached = true →
        attachServerToNetwork client srv nw ip ips = ⟨none, false⟩) ∧
    (isError e ErrCode.serverAlreadyAttached = false →
        attachServerToNetwork client srv nw ip ips =
          ⟨some (Err.wrapped "attach server to network" e), false⟩) := by
  have hf : attachRetryClassify (client.attachToNetwork srv ⟨nw, ip, ips⟩ 0) =
      RetryOutcome.fatal e := by
    simp [attachRetryClassify, h0, hc, hl]
  have hr : retry defaultMaxRetries
      (fun i => attachRetryClassify (client.attachToNetwork srv ⟨nw, ip, ips⟩ i)) =
      (some e, none) := by
    unfold retry defaultMaxRetries
    exact retryAux_fatal (by norm_num) hf
  constructor
  · intro ha
    simp [attachServerToNetwork, hr, ha]
  · intro ha
    simp [attachServerToNetwork, hr, ha]

/-- Witness for C7: an AlreadyAttached response yields success without a
wait, a plain error yields the wrapped error. -/
theorem c7_witness :
    attachServerToNetwork
        (mkClientFull [] [] (fun _ => .error (Err.api ErrCode.serverAlreadyAttached "dup"))
          (fun _ => .ok ⟨7⟩) (fun _ => .ok ⟨7⟩) none) ⟨1, []⟩ ⟨2⟩ "10.0.0.2" [] =
      ⟨none, false⟩ ∧
      attachServerToNetwork
          (mkClientFull [] [] (fun _ => .error (Err.generic "boom"))
            (fun _ => .ok ⟨7⟩) (fun _ => .ok ⟨7⟩) none) ⟨1, []⟩ ⟨2⟩ "10.0.0.2" [] =
        ⟨some (Err.wrapped "attach server to network" (Err.generic "boom")), false⟩ :=
  ⟨(c7_attach_already_attached_idempotent _ ⟨1, []⟩ ⟨2⟩ "10.0.0.2" []
      (Err.api ErrCode.serverAlreadyAttached "dup") (by rfl) (by decide) (by decide)).1
      (by decide),
    (c7_attach_already_attached_idempotent _ ⟨1, []⟩ ⟨2⟩ "10.0.0.2" []
      (Err.generic "boom") (by rfl) (by decide) (by decide)).2 (by decide)⟩

theorem isError_notFound_not_retryable {e : Err} (h : isError e ErrCode.notFound = true) :
    isError e ErrCode.conflict = false ∧ isError e ErrCode.locked = false := by
  cases e with
  | invalidServerNetworkID => simp [isError] at h
  | generic m => simp [isError] at h
  | wrapped c2 e2 => simp [isError] at h
  | api c m =>
    simp only [isError, beq_iff_eq] at h
    subst h
    exact ⟨rfl, rfl⟩

/-- C8: any lookup failure makes detach drop the local record and report
success without calling the cloud; a NotFound result of the detach call is
converted to success without a wait; any other non-retryable detach error
surfaces; a failure of the awaited action surfaces. -/
theorem c8_detach_tolerates_gone_and_notfound :
    (∀ (s : List Char) (client : Client),
        (lookupServerNetworkID s client).err.isSome = true →
        resourceServerNetworkDelete s client = ⟨none, true, false, false⟩) ∧
    (∀ (s : List Char) (client : Client) (srv : Option Server) (nw : Option Network)
        (m : Option ServerPrivateNet) (tr : List FetchEv) (e : Err),
        lookupServerNetworkID s client = ⟨srv, nw, m, none, tr⟩ →
        client.detachFromNetwork srv ⟨nw⟩ 0 = .error e →
        isError e ErrCode.notFound = true →
        resourceServerNetworkDelete s client = ⟨none, false, true, false⟩) ∧
    (∀ (s : List Char) (client : Client) (srv : Option Server) (nw : Option Network)
        (m : Option ServerPrivateNet) (tr : List FetchEv) (e : Err),
        lookupServerNetworkID s client = ⟨srv, nw, m, none, tr⟩ →
        client.detachFromNetwork srv ⟨nw⟩ 0 = .error e →
        isError e ErrCode.conflict = false → isError e ErrCode.locked = false →
        isError e ErrCode.notFound = false →
        resourceServerNetworkDelete s client = ⟨some e, false, true, false⟩) ∧
    (∀ (s : List Char) (client : Client) (srv : Option Server) (nw : Option Network)
        (m : Option ServerPrivateNet) (tr : List FetchEv) (a : Action) (e : Err),
        lookupServerNetworkID s client = ⟨srv, nw, m, none, tr⟩ →
        client.detachFromNetwork srv ⟨nw⟩ 0 = .ok a →
        client.waitNetworkAction (some a) nw = some e →
        resourceServerNetworkDelete s client = ⟨some e, false, true, true⟩) := by
  refine ⟨?_, ?_, ?_, ?_⟩
  · intro s client h
    cases herr : (lookupServerNetworkID s client).err with
    | none => rw [herr] at h; cases h
    | some e => simp [resourceServerNetworkDelete, herr]
  · intro s client srv nw m tr e hlk hd hnf
    obtain ⟨hc0, hl0⟩ := isError_notFound_not_retryable hnf
    have hr : retry defaultMaxRetries
        (fun i => detachRetryClassify (client.detachFromNetwork srv ⟨nw⟩ i)) =
        (some e, none) := by
      unfold retry defaultMaxRetries
      exact retryAux_fatal (by norm_num) (by simp [detachRetryClassify, hd, hc0, hl0])
    simp [resourceServerNetworkDelete, hlk, hr, hnf]
  · intro s client srv nw m tr e hlk hd hc0 hl0 hnf
    have hr : retry defaultMaxRetries
        (fun i => detachRetryClassify (client.detachFromNetwork srv ⟨nw⟩ i)) =
        (some e, none) := by
      unfold retry defaultMaxRetries
      exact retryAux_fatal (by norm_num) (by simp [detachRetryClassify, hd, hc0, hl0])
    simp [resourceServerNetworkDelete, hlk, hr, hnf]
  · intro s client srv nw m tr a e hlk hd hw
    have hr : retry defaultMaxRetries
        (fun i => detachRetryClassify (client.detachFromNetwork srv ⟨nw⟩ i)) =
        (none, some a) := by
      unfold retry defaultMaxRetries
      exact retryAux_ok (by norm_num) (by simp [detachRetryClassify, hd])
    simp [resourceServerNetworkDelete, hlk, hr, waitForNetworkAction, hw]

/-- Witness for C8: a malformed identifier, a NotFound detach, another detach
error and a failing awaited action, each on a concrete client. -/
theorem c8_witness :
    resourceServerNetworkDelete ("junk".toList) (mkClient [] []) =
        ⟨none, true, false, false⟩ ∧
      resourceServerNetworkDelete ("1-2".toList)
          (mkClientFull [⟨1, [pn2]⟩] [⟨2⟩] (fun _ => .ok ⟨7⟩) (fun _ => .ok ⟨7⟩)
            (fun _ => .error (Err.api ErrCode.notFound "gone")) none) =
        ⟨none, false, true, false⟩ ∧
      resourceServerNetworkDelete ("1-2".toList)
          (mkClientFull [⟨1, [pn2]⟩] [⟨2⟩] (fun _ => .ok ⟨7⟩) (fun _ => .ok ⟨7⟩)
            (fun _ => .error (Err.generic "boom")) none) =
        ⟨some (Err.generic "boom"), false, true, false⟩ ∧
      resourceServerNetworkDelete ("1-2".toList)
          (mkClientFull [⟨1, [pn2]⟩] [⟨2⟩] (fun _ => .ok ⟨7⟩) (fun _ => .ok ⟨7⟩)
            (fun _ => .ok ⟨7⟩) (some (Err.generic "action failed"))) =
        ⟨some (Err.generic "action failed"), false, true, true⟩ :=
  ⟨c8_detach_tolerates_gone_and_notfound.1 ("junk".toList) _ (by decide),
    c8_detach_tolerates_gone_and_notfound.2.1 ("1-2".toList) _ (some ⟨1, [pn2]⟩) (some ⟨2⟩)
      (some pn2) [FetchEv.fetchServer 1, FetchEv.fetchNetwork 2]
      (Err.api ErrCode.notFound "gone") (by decide) (by rfl) (by decide),
    c8_detach_tolerates_gone_and_notfound.2.2.1 ("1-2".toList) _ (some ⟨1, [pn2]⟩)
      (some ⟨2⟩) (some pn2) [FetchEv.fetchServer 1, FetchEv.fetchNetwork 2]
      (Err.generic "boom") (by decide) (by rfl) (by decide) (by decide) (by decide),
    c8_detach_tolerates_gone_and_notfound.2.2.2 ("1-2".toList) _ (some ⟨1, [pn2]⟩)
      (some ⟨2⟩) (some pn2) [FetchEv.fetchServer 1, FetchEv.fetchNetwork 2] ⟨7⟩
      (Err.generic "action failed") (by decide) (by rfl) (by rfl)⟩

/-- C9: for the attach and detach closures alike, exhausting the attempt
budget on Conflict or ResourceLocked errors surfaces the last observed error,
the first non-retryable error aborts at once no matter how later attempts
would respond, and a success after some retryable errors within the budget
yields the captured action. -/
theorem c9_retry_policy :
    (∀ (f : Nat → Except Err Action) (es : Nat → Err),
        (∀ i, i < defaultMaxRetries → f i = .error (es i) ∧
            (isError (es i) ErrCode.conflict || isError (es i) ErrCode.locked) = true) →
        retry defaultMaxRetries (fun i => attachRetryClassify (f i)) =
            (some (es (defaultMaxRetries - 1)), none) ∧
          retry defaultMaxRetries (fun i => detachRetryClassify (f i)) =
            (some (es (defaultMaxRetries - 1)), none)) ∧
    (∀ (f : Nat → Except Err Action) (e : Err), f 0 = .error e →
        isError e ErrCode.conflict = false → isError e ErrCode.locked = false →
        retry defaultMaxRetries (fun i => attachRetryClassify (f i)) = (some e, none) ∧
          retry defaultMaxRetries (fun i => detachRetryClassify (f i)) = (some e, none)) ∧
    (∀ (f : Nat → Except Err Action) (es : Nat → Err) (k : Nat) (a : Action),
        k < defaultMaxRetries →
        (∀ j, j < k → f j = .error (es j) ∧
            (isError (es j) ErrCode.conflict || isError (es j) ErrCode.locked) = true) →
        f k = .ok a →
        retry defaultMaxRetries (fun i => attachRetryClassify (f i)) = (none, some a) ∧
          retry defaultMaxRetries (fun i => detachRetryClassify (f i)) = (none, some a)) := by
  have hce : detachRetryClassify = attachRetryClassify := rfl
  refine ⟨?_, ?_, ?_⟩
  · intro f es hall
    have hg : ∀ j, j < defaultMaxRetries →
        (fun i => attachRetryClassify (f i)) (0 + j) = RetryOutcome.retryable (es (0 + j)) := by
      intro j hj
      simp only [Nat.zero_add]
      obtain ⟨h1, h2⟩ := hall j hj
      simp [attachRetryClassify, h1, h2]
    have key : retry defaultMaxRetries (fun i => attachRetryClassify (f i)) =
        (some (es (defaultMaxRetries - 1)), none) := by
      unfold retry
      have h5 := retryAux_exhaust (fun i => attachRetryClassify (f i)) es
        defaultMaxRetries 0 (by decide) hg
      simpa using h5
    exact ⟨key, by rw [hce]; exact key⟩
  · intro f e h0 hc0 hl0
    have key : retry defaultMaxRetries (fun i => attachRetryClassify (f i)) =
        (some e, none) := by
      unfold retry defaultMaxRetries
      exact retryAux_fatal (by norm_num) (by simp [attachRetryClassify, h0, hc0, hl0])
    exact ⟨key, by rw [hce]; exact key⟩
  · intro f es k a hk hall hok
    have hg : ∀ j, j < k →
        (fun i => attachRetryClassify (f i)) (0 + j) = RetryOutcome.retryable (es (0 + j)) := by
      intro j hj
      simp only [Nat.zero_add]
      obtain ⟨h1, h2⟩ := hall j hj
      simp [attachRetryClassify, h1, h2]
    have hgk : (fun i => attachRetryClassify (f i)) (0 + k) = RetryOutcome.ok a := by
      simp only [Nat.zero_add]
      simp [attachRetryClassify, hok]
    have key : retry defaultMaxRetries (fun i => attachRetryClassify (f i)) =
        (none, some a) := by
      unfold retry
      exact retryAux_ok_after (fun i => attachRetryClassify (f i)) es k 0
        defaultMaxRetries hk hg hgk
    exact ⟨key, by rw [hce]; exact key⟩

/-- Witness for C9: five straight Conflict errors surface the last one, an
immediate NotFound aborts on the first attempt, and a Conflict followed by a
success on the second attempt yields the action. -/
theorem c9_witness :
    retry defaultMaxRetries (fun i => attachRetryClassify
        ((fun j => Except.error (Err.api ErrCode.conflict (toString j))) i)) =
      (some (Err.api ErrCode.conflict (toString (defaultMaxRetries - 1))), none) ∧
    retry defaultMaxRetries (fun i => attachRetryClassify
        ((fun j => if j = 0 then Except.error (Err.api ErrCode.notFound "gone")
          else Except.ok ⟨7⟩) i)) = (some (Err.api ErrCode.notFound "gone"), none) ∧
    retry defaultMaxRetries (fun i => detachRetryClassify
        ((fun j => if j = 0 then Except.error (Err.api ErrCode.conflict "c")
          else Except.ok ⟨7⟩) i)) = (none, some ⟨7⟩) :=
  ⟨(c9_retry_policy.1 (fun j => Except.error (Err.api ErrCode.conflict (toString j)))
      (fun j => Err.api ErrCode.conflict (toString j))
      (fun i _ => ⟨rfl, rfl⟩)).1,
    (c9_retry_policy.2.1 (fun j => if j = 0 then Except.error (Err.api ErrCode.notFound "gone")
        else Except.ok ⟨7⟩) (Err.api ErrCode.notFound "gone") (by rfl) (by decide)
      (by decide)).1,
    (c9_retry_policy.2.2 (fun j => if j = 0 then Except.error (Err.api ErrCode.conflict "c")
        else Except.ok ⟨7⟩) (fun _ => Err.api ErrCode.conflict "c") 1 ⟨7⟩ (by decide)
      (fun j hj => by interval_cases j; exact ⟨rfl, by decide⟩) (by rfl)).2⟩

end HCSN
